import Mathlib

/-!
Shallow embedding of the three command-line utilities of this repository:
`convert_svg.py`, `convert_svg_browser.py` and `extract_pdf_text.py`.

Each external library call the scripts make (Playwright, svglib/reportlab,
cairosvg, pypdf) is modelled by an environment record that says, per call,
whether the call raises an exception and whether it leaves its output file
on disk.  File-system state is the pair of booleans "the PDF output path
exists on disk" / "the PNG output path exists on disk".  Console output is
modelled as a list of message tags, one tag per `print` in the scripts.
`sys.exit(1)` is modelled as returning exit code 1, falling off the end of
the script as exit code 0.
-/

/-- A path argument, abstracted to the two things the scripts inspect before
converting: whether the file exists (`Path.exists()`) and its extension
(`Path.suffix`). -/
structure InputFile where
  present : Bool
  suffix : String
deriving DecidableEq

/-- One external call that is supposed to write an output file: whether the
call raises an exception, and whether the output file is on disk after the
call (a call may write the file and raise afterwards, or return normally
without having produced the file). -/
structure ExtCall where
  throws : Bool
  writes : Bool
deriving DecidableEq

/-- A call to `svg2rlg`: whether it raises, and whether it returns a truthy
drawing object (`None` is falsy, making `if drawing:` fail). -/
structure ParseCall where
  throws : Bool
  someDrawing : Bool
deriving DecidableEq

/-- Python `str.lower()`, modelled character-wise (ASCII case folding, which
is what the `.svg` / `.pdf` extension checks rely on). -/
def strLower (s : String) : String := String.mk (s.data.map Char.toLower)

/-- The five conversion backends of `convert_svg.py`: three PDF candidates
(lines 65, 121, 137) and two PNG candidates (lines 147, 161). -/
inductive Backend where
  | playwright
  | svglibPdf
  | cairoPdf
  | renderPM
  | cairoPng
deriving DecidableEq

/-- Console messages printed by `convert_svg.py`, one tag per `print`. -/
inductive Msg where
  | errNotFound
  | errBadExt
  | converting (b : Backend)
  | okCreated (b : Backend)
  | warnNotCreated (b : Backend)
  | warnFailed (b : Backend)
  | warnParse
  | errNoPdf
  | doneOk
  | latexHint
  | notePng
deriving DecidableEq

/-- The four module-level availability flags of `convert_svg.py`
(`HAS_PLAYWRIGHT`, `HAS_SVGLIB_PDF`, `HAS_RENDERPM`, `HAS_CAIROSVG`),
computed once at import time and never mutated. -/
structure Flags where
  hasPlaywright : Bool
  hasSvglibPdf : Bool
  hasRenderPM : Bool
  hasCairosvg : Bool
deriving DecidableEq

/-- The behaviour of every external call `convert_svg` makes, one field per
call site: the whole Playwright block (read_text + launch + page.pdf +
close), the two `svg2rlg` parses, the two reportlab `drawToFile` calls and
the two cairosvg conversions. -/
structure Env where
  playwrightPdf : ExtCall
  svg2rlgPdf : ParseCall
  renderPdfDraw : ExtCall
  cairoPdf : ExtCall
  svg2rlgPng : ParseCall
  renderPmDraw : ExtCall
  cairoPng : ExtCall
deriving DecidableEq

/-- The mutable state of one `convert_svg` invocation: the two flags
`pdf_created` / `png_created`, the on-disk status of the two output paths,
the backends attempted so far, and the console transcript. -/
structure St where
  pdfCreated : Bool
  pngCreated : Bool
  pdfOnDisk : Bool
  pngOnDisk : Bool
  attempts : List Backend
  msgs : List Msg
deriving DecidableEq

/-- Which availability flag guards each backend. -/
def available (f : Flags) : Backend → Bool
  | .playwright => f.hasPlaywright
  | .svglibPdf => f.hasSvglibPdf
  | .cairoPdf => f.hasCairosvg
  | .renderPM => f.hasRenderPM
  | .cairoPng => f.hasCairosvg

/-! ### SVG dimension extraction (convert_svg.py lines 71-74 and
convert_svg_browser.py lines 36-41)

`re.search(r'width="(\d+)px"', content)`: leftmost occurrence of the
literal `width="`, followed by a non-empty digit run, followed by `px"`;
the digit group is converted with `int(...)`. -/

/-- The digit group of a size match, converted to a number (`int(...)`). -/
def digitsToNat (ds : List Char) : Nat :=
  ds.foldl (fun a c => 10 * a + (c.toNat - 48)) 0

/-- Try to match `pat ++ digits+ ++ px"` at the head of `cs`, returning the
value of the digit group. -/
def matchSizeAt (pat : List Char) (cs : List Char) : Option Nat :=
  if cs.take pat.length = pat then
    let rest := cs.drop pat.length
    let ds := rest.takeWhile Char.isDigit
    if ds.isEmpty then none
    else if (rest.drop ds.length).take 3 = ['p', 'x', '\x22'] then some (digitsToNat ds)
    else none
  else none

/-- Leftmost match of the size pattern in the content (`re.search`). -/
def searchSize (pat : List Char) : List Char → Option Nat
  | [] => none
  | c :: cs =>
    match matchSizeAt pat (c :: cs) with
    | some n => some n
    | none => searchSize pat cs

/-- The literal part of the width pattern: `width="`. -/
def widthPat : List Char := "width=\x22".toList

/-- The literal part of the height pattern: `height="`. -/
def heightPat : List Char := "height=\x22".toList

/-- `svg_width`: the matched width, else the default `'800'`. -/
def svgWidthOf (content : String) : Nat :=
  (searchSize widthPat content.toList).getD 800

/-- `svg_height`: the matched height, else the default `'600'`. -/
def svgHeightOf (content : String) : Nat :=
  (searchSize heightPat content.toList).getD 600

/-- The rendering-surface parameters handed to the browser: the `page.pdf`
width/height arguments (`int(svg_width) + 40` / `int(svg_height) + 40`),
the `padding: 20px` of the HTML wrapper's body style, `print_background`
and the zero page margin.  Identical in `convert_svg.py` (lines 76-108) and
`convert_svg_browser.py` (lines 44-75). -/
structure PageConfig where
  pageWidthPx : Nat
  pageHeightPx : Nat
  bodyPaddingPx : Nat
  printBackground : Bool
  pageMarginPx : Nat
deriving DecidableEq

/-- The browser rendering surface built from the SVG content. -/
def pageConfigOf (content : String) : PageConfig :=
  { pageWidthPx := svgWidthOf content + 40
    pageHeightPx := svgHeightOf content + 40
    bodyPaddingPx := 20
    printBackground := true
    pageMarginPx := 0 }

/-! ### convert_svg.py, function convert_svg -/

/-- The Playwright PDF attempt (convert_svg.py lines 65-118). -/
def playwrightStep (f : Flags) (e : Env) (s : St) : St :=
  if f.hasPlaywright then
    let s1 : St := { s with attempts := s.attempts ++ [Backend.playwright],
                            msgs := s.msgs ++ [Msg.converting Backend.playwright] }
    let s2 : St := if e.playwrightPdf.writes then { s1 with pdfOnDisk := true } else s1
    if e.playwrightPdf.throws then
      { s2 with msgs := s2.msgs ++ [Msg.warnFailed Backend.playwright] }
    else if s2.pdfOnDisk then
      { s2 with pdfCreated := true, msgs := s2.msgs ++ [Msg.okCreated Backend.playwright] }
    else
      { s2 with msgs := s2.msgs ++ [Msg.warnNotCreated Backend.playwright] }
  else s

/-- The svglib/reportlab PDF attempt (convert_svg.py lines 121-135). -/
def svglibStep (f : Flags) (e : Env) (s : St) : St :=
  if !s.pdfCreated && f.hasSvglibPdf then
    let s1 : St := { s with attempts := s.attempts ++ [Backend.svglibPdf],
                            msgs := s.msgs ++ [Msg.converting Backend.svglibPdf] }
    if e.svg2rlgPdf.throws then
      { s1 with msgs := s1.msgs ++ [Msg.warnFailed Backend.svglibPdf] }
    else if e.svg2rlgPdf.someDrawing then
      let s2 : St := if e.renderPdfDraw.writes then { s1 with pdfOnDisk := true } else s1
      if e.renderPdfDraw.throws then
        { s2 with msgs := s2.msgs ++ [Msg.warnFailed Backend.svglibPdf] }
      else if s2.pdfOnDisk then
        { s2 with pdfCreated := true, msgs := s2.msgs ++ [Msg.okCreated Backend.svglibPdf] }
      else
        { s2 with msgs := s2.msgs ++ [Msg.warnNotCreated Backend.svglibPdf] }
    else
      { s1 with msgs := s1.msgs ++ [Msg.warnParse] }
  else s

/-- The cairosvg PDF attempt (convert_svg.py lines 137-144).  Note: unlike
the two attempts before it, this branch sets `pdf_created = True` right
after `cairosvg.svg2pdf` returns, without checking `pdf_path.exists()`. -/
def cairoPdfStep (f : Flags) (e : Env) (s : St) : St :=
  if !s.pdfCreated && f.hasCairosvg then
    let s1 : St := { s with attempts := s.attempts ++ [Backend.cairoPdf],
                            msgs := s.msgs ++ [Msg.converting Backend.cairoPdf] }
    let s2 : St := if e.cairoPdf.writes then { s1 with pdfOnDisk := true } else s1
    if e.cairoPdf.throws then
      { s2 with msgs := s2.msgs ++ [Msg.warnFailed Backend.cairoPdf] }
    else
      { s2 with pdfCreated := true, msgs := s2.msgs ++ [Msg.okCreated Backend.cairoPdf] }
  else s

/-- The reportlab renderPM PNG attempt (convert_svg.py lines 147-159).
It runs whenever `HAS_RENDERPM`, independently of the PDF outcome; its
parse-returned-None case prints nothing (line 151 has no else). -/
def renderPMStep (f : Flags) (e : Env) (s : St) : St :=
  if f.hasRenderPM then
    let s1 : St := { s with attempts := s.attempts ++ [Backend.renderPM],
                            msgs := s.msgs ++ [Msg.converting Backend.renderPM] }
    if e.svg2rlgPng.throws then
      { s1 with msgs := s1.msgs ++ [Msg.warnFailed Backend.renderPM] }
    else if e.svg2rlgPng.someDrawing then
      let s2 : St := if e.renderPmDraw.writes then { s1 with pngOnDisk := true } else s1
      if e.renderPmDraw.throws then
        { s2 with msgs := s2.msgs ++ [Msg.warnFailed Backend.renderPM] }
      else if s2.pngOnDisk then
        { s2 with pngCreated := true, msgs := s2.msgs ++ [Msg.okCreated Backend.renderPM] }
      else
        { s2 with msgs := s2.msgs ++ [Msg.warnNotCreated Backend.renderPM] }
    else s1
  else s

/-- The cairosvg PNG attempt (convert_svg.py lines 161-171). -/
def cairoPngStep (f : Flags) (e : Env) (s : St) : St :=
  if f.hasCairosvg && !s.pngCreated then
    let s1 : St := { s with attempts := s.attempts ++ [Backend.cairoPng],
                            msgs := s.msgs ++ [Msg.converting Backend.cairoPng] }
    let s2 : St := if e.cairoPng.writes then { s1 with pngOnDisk := true } else s1
    if e.cairoPng.throws then
      { s2 with msgs := s2.msgs ++ [Msg.warnFailed Backend.cairoPng] }
    else if s2.pngOnDisk then
      { s2 with pngCreated := true, msgs := s2.msgs ++ [Msg.okCreated Backend.cairoPng] }
    else
      { s2 with msgs := s2.msgs ++ [Msg.warnNotCreated Backend.cairoPng] }
  else s

/-- The state at the start of the conversion phase (convert_svg.py lines
61-62), parameterised by whatever is already on disk at the output paths. -/
def initSt (pdfOnDisk pngOnDisk : Bool) : St :=
  { pdfCreated := false, pngCreated := false, pdfOnDisk := pdfOnDisk,
    pngOnDisk := pngOnDisk, attempts := [], msgs := [] }

/-- State after the Playwright attempt. -/
def afterPlaywright (f : Flags) (e : Env) (d1 d2 : Bool) : St :=
  playwrightStep f e (initSt d1 d2)

/-- State after the svglib attempt. -/
def afterSvglib (f : Flags) (e : Env) (d1 d2 : Bool) : St :=
  svglibStep f e (afterPlaywright f e d1 d2)

/-- State after the cairosvg PDF attempt (end of the PDF chain). -/
def afterCairoPdf (f : Flags) (e : Env) (d1 d2 : Bool) : St :=
  cairoPdfStep f e (afterSvglib f e d1 d2)

/-- State after the renderPM PNG attempt. -/
def afterRenderPM (f : Flags) (e : Env) (d1 d2 : Bool) : St :=
  renderPMStep f e (afterCairoPdf f e d1 d2)

/-- State after the cairosvg PNG attempt (end of all attempts). -/
def afterCairoPng (f : Flags) (e : Env) (d1 d2 : Bool) : St :=
  cairoPngStep f e (afterRenderPM f e d1 d2)

/-- The tail of `convert_svg` (lines 173-182): fatal check for the required
PDF output, then the success messages and the optional PNG note. -/
def finishPhase (s : St) : St × Nat :=
  if s.pdfCreated then
    let s1 : St := { s with msgs := s.msgs ++ [Msg.doneOk, Msg.latexHint] }
    let s2 : St := if s1.pngCreated then s1 else { s1 with msgs := s1.msgs ++ [Msg.notePng] }
    (s2, 0)
  else
    ({ s with msgs := s.msgs ++ [Msg.errNoPdf] }, 1)

/-- `convert_svg` (convert_svg.py lines 38-188): existence and extension
validation, the five backend attempts, then the exit-code decision. -/
def convert_svg (inp : InputFile) (f : Flags) (e : Env) (d1 d2 : Bool) : St × Nat :=
  if !inp.present then
    ({ initSt d1 d2 with msgs := [Msg.errNotFound] }, 1)
  else if !(strLower inp.suffix == ".svg") then
    ({ initSt d1 d2 with msgs := [Msg.errBadExt] }, 1)
  else
    finishPhase (afterCairoPng f e d1 d2)

/-! ### convert_svg_browser.py, function convert_svg -/

/-- Console messages printed by `convert_svg_browser.py`. -/
inductive BMsg where
  | errNotFound
  | errBadExt
  | converting
  | okCreated
  | latexHint
  | errNotCreated
  | errConversion
  | errNoPlaywright
deriving DecidableEq

/-- Result of one `convert_svg_browser.py` invocation: whether the
Playwright backend was invoked, the final on-disk status of the PDF path,
the transcript and the exit code. -/
structure BResult where
  attempted : Bool
  pdfOnDisk : Bool
  msgs : List BMsg
  exitCode : Nat
deriving DecidableEq

namespace Browser

/-- `convert_svg` of convert_svg_browser.py (lines 132-165): validation,
then a single Playwright attempt (`convert_with_playwright`, whose effect
is the `call` parameter), with `pdf_path.exists()` deciding success. -/
def convert_svg (inp : InputFile) (hasPlaywright : Bool) (call : ExtCall)
    (pdfOnDisk0 : Bool) : BResult :=
  if !inp.present then
    { attempted := false, pdfOnDisk := pdfOnDisk0, msgs := [BMsg.errNotFound], exitCode := 1 }
  else if !(strLower inp.suffix == ".svg") then
    { attempted := false, pdfOnDisk := pdfOnDisk0, msgs := [BMsg.errBadExt], exitCode := 1 }
  else if hasPlaywright then
    let disk := pdfOnDisk0 || call.writes
    if call.throws then
      { attempted := true, pdfOnDisk := disk,
        msgs := [BMsg.converting, BMsg.errConversion], exitCode := 1 }
    else if disk then
      { attempted := true, pdfOnDisk := disk,
        msgs := [BMsg.converting, BMsg.okCreated, BMsg.latexHint], exitCode := 0 }
    else
      { attempted := true, pdfOnDisk := disk,
        msgs := [BMsg.converting, BMsg.errNotCreated], exitCode := 1 }
  else
    { attempted := false, pdfOnDisk := pdfOnDisk0, msgs := [BMsg.errNoPlaywright], exitCode := 1 }

end Browser

/-! ### extract_pdf_text.py -/

namespace ExtractPdfText

/-- Outcome of `extract_text_from_pdf` on one file: `err` when `PdfReader`
or a page's `extract_text` raised (the function returns `None`), otherwise
the joined page text. -/
inductive ExtractOutcome where
  | err
  | ok (text : String)
deriving DecidableEq

/-- Python truthiness of the result, as tested by `if text:` (line 103):
`None` and the empty string are falsy. -/
def goodText : ExtractOutcome → Bool
  | .err => false
  | .ok t => !(t == "")

/-- Console messages printed by `extract_pdf_text.py` (per-file tags carry
the file's stem). -/
inductive EMsg where
  | errNotFound
  | errBadExt
  | noPdfFound
  | savedTo (stem : String)
  | saveFailed (stem : String)
  | extractedOk (stem : String)
  | failedExtract (stem : String)
deriving DecidableEq

/-- Result of a run: the stems whose `.txt` file was fully written, the
stems that were processed (extraction attempted), and the transcript. -/
structure RunResult where
  outputs : List String
  processed : List String
  msgs : List EMsg
deriving DecidableEq

/-- The per-file loop of `main` (lines 95-113): extract, and when the text
is truthy save it to `<stem>.txt` (`save_text_to_file` swallows its own
errors, line 64); when it is falsy print the failure message and write
nothing. -/
def processAll (env : String → ExtractOutcome) (saveOk : String → Bool) :
    List String → RunResult
  | [] => ⟨[], [], []⟩
  | p :: rest =>
    let here : RunResult :=
      if goodText (env p) then
        if saveOk p then ⟨[p], [p], [EMsg.savedTo p, EMsg.extractedOk p]⟩
        else ⟨[], [p], [EMsg.saveFailed p, EMsg.extractedOk p]⟩
      else ⟨[], [p], [EMsg.failedExtract p]⟩
    let r := processAll env saveOk rest
    ⟨here.outputs ++ r.outputs, here.processed ++ r.processed, here.msgs ++ r.msgs⟩

/-- A filename argument, abstracted to existence, extension and stem. -/
structure ArgFile where
  present : Bool
  suffix : String
  stem : String
deriving DecidableEq

/-- `main` of extract_pdf_text.py (lines 68-113): with a filename argument,
validate it and process that one file; with no argument, process every
`*.pdf` of the current directory (`dirPdfs`, given by their stems), exiting
1 when there is none.  Falling out of the loop exits 0. -/
def main (arg : Option ArgFile) (dirPdfs : List String)
    (env : String → ExtractOutcome) (saveOk : String → Bool) : RunResult × Nat :=
  match arg with
  | some a =>
    if !a.present then (⟨[], [], [EMsg.errNotFound]⟩, 1)
    else if !(strLower a.suffix == ".pdf") then (⟨[], [], [EMsg.errBadExt]⟩, 1)
    else (processAll env saveOk [a.stem], 0)
  | none =>
    if dirPdfs.isEmpty then (⟨[], [], [EMsg.noPdfFound]⟩, 1)
    else (processAll env saveOk dirPdfs, 0)

end ExtractPdfText

/-! ### Concrete sample inputs used in counterexamples and witnesses -/

/-- A path argument that exists and has the `.svg` extension. -/
def inpSvg : InputFile := ⟨true, ".svg"⟩

/-- All four libraries importable. -/
def flagsAll : Flags := ⟨true, true, true, true⟩

/-- Only Playwright importable. -/
def flagsPwOnly : Flags := ⟨true, false, false, false⟩

/-- Only cairosvg importable. -/
def flagsCairoOnly : Flags := ⟨false, false, false, true⟩

/-- Only reportlab renderPM importable. -/
def flagsPngDemo : Flags := ⟨false, false, true, false⟩

/-- Every external call raises and leaves no file. -/
def envAllFail : Env :=
  ⟨⟨true, false⟩, ⟨true, false⟩, ⟨true, false⟩, ⟨true, false⟩,
   ⟨true, false⟩, ⟨true, false⟩, ⟨true, false⟩⟩

/-- `cairosvg.svg2pdf` returns normally but leaves no file; everything else
raises. -/
def envCairoSilent : Env := { envAllFail with cairoPdf := ⟨false, false⟩ }

/-- The Playwright block writes the PDF file and then raises (for example in
`browser.close()`); everything else raises. -/
def envPwLeftover : Env := { envAllFail with playwrightPdf := ⟨true, true⟩ }

/-- The PNG chain succeeds via renderPM while every PDF backend call
raises. -/
def envPngDemo : Env :=
  { envAllFail with svg2rlgPng := ⟨false, true⟩, renderPmDraw := ⟨false, true⟩ }

/-- An SVG source with explicit pixel dimensions 96 x 54. -/
def svgSample : String := "<svg width=\x2296px\x22 height=\x2254px\x22></svg>"

/-- Replace the three PNG-attempt call behaviours of an environment,
keeping the PDF-attempt ones. -/
def setPngEnv (e : Env) (p : ParseCall) (r c : ExtCall) : Env :=
  { e with svg2rlgPng := p, renderPmDraw := r, cairoPng := c }

/-! ### Helper lemmas about the convert_svg steps -/

theorem mem_optList {α : Type} (b : Bool) (x y : α) :
    x ∈ (if b then [y] else ([] : List α)) ↔ (b = true ∧ x = y) := by
  cases b <;> simp

theorem playwrightStep_attempts (f : Flags) (e : Env) (s : St) :
    (playwrightStep f e s).attempts
      = s.attempts ++ (if f.hasPlaywright then [Backend.playwright] else []) := by
  cases hp : f.hasPlaywright <;>
    simp only [playwrightStep, hp, Bool.false_eq_true, if_false, if_true,
      List.append_nil] <;> (try rfl) <;> (repeat' split) <;> simp

theorem svglibStep_attempts (f : Flags) (e : Env) (s : St) :
    (svglibStep f e s).attempts
      = s.attempts ++ (if !s.pdfCreated && f.hasSvglibPdf then [Backend.svglibPdf] else []) := by
  cases hg : (!s.pdfCreated && f.hasSvglibPdf) <;>
    simp only [svglibStep, hg, Bool.false_eq_true, if_false, if_true,
      List.append_nil] <;> (try rfl) <;> (repeat' split) <;> simp

theorem cairoPdfStep_attempts (f : Flags) (e : Env) (s : St) :
    (cairoPdfStep f e s).attempts
      = s.attempts ++ (if !s.pdfCreated && f.hasCairosvg then [Backend.cairoPdf] else []) := by
  cases hg : (!s.pdfCreated && f.hasCairosvg) <;>
    simp only [cairoPdfStep, hg, Bool.false_eq_true, if_false, if_true,
      List.append_nil] <;> (try rfl) <;> (repeat' split) <;> simp

theorem renderPMStep_attempts (f : Flags) (e : Env) (s : St) :
    (renderPMStep f e s).attempts
      = s.attempts ++ (if f.hasRenderPM then [Backend.renderPM] else []) := by
  cases hg : f.hasRenderPM <;>
    simp only [renderPMStep, hg, Bool.false_eq_true, if_false, if_true,
      List.append_nil] <;> (try rfl) <;> (repeat' split) <;> simp

theorem cairoPngStep_attempts (f : Flags) (e : Env) (s : St) :
    (cairoPngStep f e s).attempts
      = s.attempts ++ (if f.hasCairosvg && !s.pngCreated then [Backend.cairoPng] else []) := by
  cases hg : (f.hasCairosvg && !s.pngCreated) <;>
    simp only [cairoPngStep, hg, Bool.false_eq_true, if_false, if_true,
      List.append_nil] <;> (try rfl) <;> (repeat' split) <;> simp

theorem playwrightStep_pdfCreated (f : Flags) (e : Env) (s : St) :
    (playwrightStep f e s).pdfCreated
      = (s.pdfCreated
          || (f.hasPlaywright && !e.playwrightPdf.throws
              && (s.pdfOnDisk || e.playwrightPdf.writes))) := by
  cases hp : f.hasPlaywright <;> cases ht : e.playwrightPdf.throws <;>
    cases hw : e.playwrightPdf.writes <;> cases hd : s.pdfOnDisk <;>
    simp [playwrightStep, hp, ht, hw, hd]

theorem svglibStep_pdfCreated (f : Flags) (e : Env) (s : St) :
    (svglibStep f e s).pdfCreated
      = (s.pdfCreated
          || (f.hasSvglibPdf && !e.svg2rlgPdf.throws && e.svg2rlgPdf.someDrawing
              && !e.renderPdfDraw.throws && (s.pdfOnDisk || e.renderPdfDraw.writes))) := by
  cases hc : s.pdfCreated <;> cases hf : f.hasSvglibPdf <;>
    cases h1 : e.svg2rlgPdf.throws <;> cases h2 : e.svg2rlgPdf.someDrawing <;>
    cases h3 : e.renderPdfDraw.throws <;> cases h4 : e.renderPdfDraw.writes <;>
    cases hd : s.pdfOnDisk <;>
    simp [svglibStep, hc, hf, h1, h2, h3, h4, hd]

theorem cairoPdfStep_pdfCreated (f : Flags) (e : Env) (s : St) :
    (cairoPdfStep f e s).pdfCreated
      = (s.pdfCreated || (f.hasCairosvg && !e.cairoPdf.throws)) := by
  cases hc : s.pdfCreated <;> cases hf : f.hasCairosvg <;>
    cases h1 : e.cairoPdf.throws <;> cases h2 : e.cairoPdf.writes <;>
    simp [cairoPdfStep, hc, hf, h1, h2]

theorem renderPMStep_pdfCreated (f : Flags) (e : Env) (s : St) :
    (renderPMStep f e s).pdfCreated = s.pdfCreated := by
  simp only [renderPMStep] ; (repeat' split) <;> simp

theorem cairoPngStep_pdfCreated (f : Flags) (e : Env) (s : St) :
    (cairoPngStep f e s).pdfCreated = s.pdfCreated := by
  simp only [cairoPngStep] ; (repeat' split) <;> simp

theorem playwrightStep_pngCreated (f : Flags) (e : Env) (s : St) :
    (playwrightStep f e s).pngCreated = s.pngCreated := by
  simp only [playwrightStep] ; (repeat' split) <;> simp

theorem svglibStep_pngCreated (f : Flags) (e : Env) (s : St) :
    (svglibStep f e s).pngCreated = s.pngCreated := by
  simp only [svglibStep] ; (repeat' split) <;> simp

theorem cairoPdfStep_pngCreated (f : Flags) (e : Env) (s : St) :
    (cairoPdfStep f e s).pngCreated = s.pngCreated := by
  simp only [cairoPdfStep] ; (repeat' split) <;> simp

theorem renderPMStep_pngCreated (f : Flags) (e : Env) (s : St) :
    (renderPMStep f e s).pngCreated
      = (s.pngCreated
          || (f.hasRenderPM && !e.svg2rlgPng.throws && e.svg2rlgPng.someDrawing
              && !e.renderPmDraw.throws && (s.pngOnDisk || e.renderPmDraw.writes))) := by
  cases hf : f.hasRenderPM <;> cases h1 : e.svg2rlgPng.throws <;>
    cases h2 : e.svg2rlgPng.someDrawing <;> cases h3 : e.renderPmDraw.throws <;>
    cases h4 : e.renderPmDraw.writes <;> cases hd : s.pngOnDisk <;>
    simp [renderPMStep, hf, h1, h2, h3, h4, hd]

theorem cairoPngStep_pngCreated (f : Flags) (e : Env) (s : St) :
    (cairoPngStep f e s).pngCreated
      = (s.pngCreated
          || (f.hasCairosvg && !e.cairoPng.throws && (s.pngOnDisk || e.cairoPng.writes))) := by
  cases hc : s.pngCreated <;> cases hf : f.hasCairosvg <;>
    cases h1 : e.cairoPng.throws <;> cases h2 : e.cairoPng.writes <;>
    cases hd : s.pngOnDisk <;>
    simp [cairoPngStep, hc, hf, h1, h2, hd]

theorem playwrightStep_pdfOnDisk (f : Flags) (e : Env) (s : St) :
    (playwrightStep f e s).pdfOnDisk
      = (s.pdfOnDisk || (f.hasPlaywright && e.playwrightPdf.writes)) := by
  cases hp : f.hasPlaywright <;> cases ht : e.playwrightPdf.throws <;>
    cases hw : e.playwrightPdf.writes <;> cases hd : s.pdfOnDisk <;>
    simp [playwrightStep, hp, ht, hw, hd]

theorem svglibStep_pdfOnDisk_mono (f : Flags) (e : Env) (s : St)
    (h : s.pdfOnDisk = true) : (svglibStep f e s).pdfOnDisk = true := by
  simp only [svglibStep] ; (repeat' split) <;> simp [h]

theorem cairoPdfStep_pdfOnDisk_mono (f : Flags) (e : Env) (s : St)
    (h : s.pdfOnDisk = true) : (cairoPdfStep f e s).pdfOnDisk = true := by
  simp only [cairoPdfStep] ; (repeat' split) <;> simp [h]

theorem renderPMStep_pdfOnDisk (f : Flags) (e : Env) (s : St) :
    (renderPMStep f e s).pdfOnDisk = s.pdfOnDisk := by
  simp only [renderPMStep] ; (repeat' split) <;> simp

theorem cairoPngStep_pdfOnDisk (f : Flags) (e : Env) (s : St) :
    (cairoPngStep f e s).pdfOnDisk = s.pdfOnDisk := by
  simp only [cairoPngStep] ; (repeat' split) <;> simp

theorem playwrightStep_msgs_mono (f : Flags) (e : Env) (s : St) (m : Msg)
    (h : m ∈ s.msgs) : m ∈ (playwrightStep f e s).msgs := by
  simp only [playwrightStep] ; (repeat' split) <;> simp [h]

theorem svglibStep_msgs_mono (f : Flags) (e : Env) (s : St) (m : Msg)
    (h : m ∈ s.msgs) : m ∈ (svglibStep f e s).msgs := by
  simp only [svglibStep] ; (repeat' split) <;> simp [h]

theorem cairoPdfStep_msgs_mono (f : Flags) (e : Env) (s : St) (m : Msg)
    (h : m ∈ s.msgs) : m ∈ (cairoPdfStep f e s).msgs := by
  simp only [cairoPdfStep] ; (repeat' split) <;> simp [h]

theorem renderPMStep_msgs_mono (f : Flags) (e : Env) (s : St) (m : Msg)
    (h : m ∈ s.msgs) : m ∈ (renderPMStep f e s).msgs := by
  simp only [renderPMStep] ; (repeat' split) <;> simp [h]

theorem cairoPngStep_msgs_mono (f : Flags) (e : Env) (s : St) (m : Msg)
    (h : m ∈ s.msgs) : m ∈ (cairoPngStep f e s).msgs := by
  simp only [cairoPngStep] ; (repeat' split) <;> simp [h]

theorem playwrightStep_warn (f : Flags) (e : Env) (s : St)
    (hf : f.hasPlaywright = true) (ht : e.playwrightPdf.throws = true) :
    Msg.warnFailed Backend.playwright ∈ (playwrightStep f e s).msgs := by
  cases hw : e.playwrightPdf.writes <;> simp [playwrightStep, hf, ht, hw]

theorem svglibStep_warn (f : Flags) (e : Env) (s : St)
    (hg : (!s.pdfCreated && f.hasSvglibPdf) = true)
    (ht : e.svg2rlgPdf.throws = true
          ∨ (e.svg2rlgPdf.someDrawing = true ∧ e.renderPdfDraw.throws = true)) :
    Msg.warnFailed Backend.svglibPdf ∈ (svglibStep f e s).msgs := by
  rcases ht with h1 | ⟨h2, h3⟩
  · simp [svglibStep, hg, h1]
  · cases h1 : e.svg2rlgPdf.throws
    · cases hw : e.renderPdfDraw.writes <;> simp [svglibStep, hg, h1, h2, h3, hw]
    · simp [svglibStep, hg, h1]

theorem cairoPdfStep_warn (f : Flags) (e : Env) (s : St)
    (hg : (!s.pdfCreated && f.hasCairosvg) = true)
    (ht : e.cairoPdf.throws = true) :
    Msg.warnFailed Backend.cairoPdf ∈ (cairoPdfStep f e s).msgs := by
  cases hw : e.cairoPdf.writes <;> simp [cairoPdfStep, hg, ht, hw]

theorem renderPMStep_warn (f : Flags) (e : Env) (s : St)
    (hf : f.hasRenderPM = true)
    (ht : e.svg2rlgPng.throws = true
          ∨ (e.svg2rlgPng.someDrawing = true ∧ e.renderPmDraw.throws = true)) :
    Msg.warnFailed Backend.renderPM ∈ (renderPMStep f e s).msgs := by
  rcases ht with h1 | ⟨h2, h3⟩
  · simp [renderPMStep, hf, h1]
  · cases h1 : e.svg2rlgPng.throws
    · cases hw : e.renderPmDraw.writes <;> simp [renderPMStep, hf, h1, h2, h3, hw]
    · simp [renderPMStep, hf, h1]

theorem cairoPngStep_warn (f : Flags) (e : Env) (s : St)
    (hg : (f.hasCairosvg && !s.pngCreated) = true)
    (ht : e.cairoPng.throws = true) :
    Msg.warnFailed Backend.cairoPng ∈ (cairoPngStep f e s).msgs := by
  cases hw : e.cairoPng.writes <;> simp [cairoPngStep, hg, ht, hw]

/-! ### Composite lemmas for a full convert_svg run -/

theorem afterCairoPng_attempts (f : Flags) (e : Env) (d1 d2 : Bool) :
    (afterCairoPng f e d1 d2).attempts
      = (if f.hasPlaywright then [Backend.playwright] else [])
        ++ (if !(afterPlaywright f e d1 d2).pdfCreated && f.hasSvglibPdf
              then [Backend.svglibPdf] else [])
        ++ (if !(afterSvglib f e d1 d2).pdfCreated && f.hasCairosvg
              then [Backend.cairoPdf] else [])
        ++ (if f.hasRenderPM then [Backend.renderPM] else [])
        ++ (if f.hasCairosvg && !(afterRenderPM f e d1 d2).pngCreated
              then [Backend.cairoPng] else []) := by
  rw [afterCairoPng, cairoPngStep_attempts, afterRenderPM, renderPMStep_attempts,
    afterCairoPdf, cairoPdfStep_attempts, afterSvglib, svglibStep_attempts,
    afterPlaywright, playwrightStep_attempts]
  rw [show (initSt d1 d2).attempts = [] from rfl]
  rw [← afterPlaywright, ← afterSvglib, ← afterCairoPdf, ← afterRenderPM]
  simp only [List.nil_append, List.append_assoc]

theorem afterCairoPng_pdfCreated (f : Flags) (e : Env) (d1 d2 : Bool) :
    (afterCairoPng f e d1 d2).pdfCreated = (afterCairoPdf f e d1 d2).pdfCreated := by
  rw [afterCairoPng, cairoPngStep_pdfCreated, afterRenderPM, renderPMStep_pdfCreated]

theorem afterCairoPdf_pngCreated (f : Flags) (e : Env) (d1 d2 : Bool) :
    (afterCairoPdf f e d1 d2).pngCreated = false := by
  rw [afterCairoPdf, cairoPdfStep_pngCreated, afterSvglib, svglibStep_pngCreated,
    afterPlaywright, playwrightStep_pngCreated]
  rfl

/-! ### Helper lemmas for extract_pdf_text -/

namespace ExtractPdfText

theorem processAll_outputs (env : String → ExtractOutcome) (saveOk : String → Bool)
    (l : List String) :
    (processAll env saveOk l).outputs = l.filter (fun p => goodText (env p) && saveOk p) := by
  induction l with
  | nil => rfl
  | cons p rest ih =>
    simp only [processAll, List.filter]
    cases hg : goodText (env p) <;> cases hs : saveOk p <;> simp [hg, hs, ih]

theorem processAll_processed (env : String → ExtractOutcome) (saveOk : String → Bool)
    (l : List String) :
    (processAll env saveOk l).processed = l := by
  induction l with
  | nil => rfl
  | cons p rest ih =>
    simp only [processAll]
    cases hg : goodText (env p) <;> cases hs : saveOk p <;> simp [hg, hs, ih]

theorem processAll_msgs_failed (env : String → ExtractOutcome) (saveOk : String → Bool)
    (l : List String) (p : String) (hp : p ∈ l) (hg : goodText (env p) = false) :
    EMsg.failedExtract p ∈ (processAll env saveOk l).msgs := by
  induction l with
  | nil => simp at hp
  | cons q rest ih =>
    rcases List.mem_cons.mp hp with h | h
    · subst h
      simp only [processAll]
      simp [hg]
    · simp only [processAll]
      (repeat' split) <;> simp [ih h]

end ExtractPdfText

theorem svglibStep_pdfOnDisk (f : Flags) (e : Env) (s : St) :
    (svglibStep f e s).pdfOnDisk
      = (s.pdfOnDisk
          || ((!s.pdfCreated && f.hasSvglibPdf) && !e.svg2rlgPdf.throws
              && e.svg2rlgPdf.someDrawing && e.renderPdfDraw.writes)) := by
  cases hc : s.pdfCreated <;> cases hf : f.hasSvglibPdf <;>
    cases h1 : e.svg2rlgPdf.throws <;> cases h2 : e.svg2rlgPdf.someDrawing <;>
    cases h3 : e.renderPdfDraw.throws <;> cases h4 : e.renderPdfDraw.writes <;>
    cases hd : s.pdfOnDisk <;>
    simp [svglibStep, hc, hf, h1, h2, h3, h4, hd]

theorem finishPhase_pdfCreated (s : St) : (finishPhase s).1.pdfCreated = s.pdfCreated := by
  simp only [finishPhase] ; (repeat' split) <;> simp

theorem finishPhase_pngCreated (s : St) : (finishPhase s).1.pngCreated = s.pngCreated := by
  simp only [finishPhase] ; (repeat' split) <;> simp

theorem finishPhase_pdfOnDisk (s : St) : (finishPhase s).1.pdfOnDisk = s.pdfOnDisk := by
  simp only [finishPhase] ; (repeat' split) <;> simp

theorem finishPhase_pngOnDisk (s : St) : (finishPhase s).1.pngOnDisk = s.pngOnDisk := by
  simp only [finishPhase] ; (repeat' split) <;> simp

theorem finishPhase_attempts (s : St) : (finishPhase s).1.attempts = s.attempts := by
  simp only [finishPhase] ; (repeat' split) <;> simp

theorem finishPhase_exit (s : St) :
    (finishPhase s).2 = if s.pdfCreated then 0 else 1 := by
  simp only [finishPhase] ; (repeat' split) <;> simp_all

theorem finishPhase_notePng (s : St) (h1 : s.pdfCreated = true) (h2 : s.pngCreated = false) :
    Msg.notePng ∈ (finishPhase s).1.msgs := by
  simp [finishPhase, h1, h2]

theorem finishPhase_msgs_mono (s : St) (m : Msg) (h : m ∈ s.msgs) :
    m ∈ (finishPhase s).1.msgs := by
  simp only [finishPhase] ; (repeat' split) <;> simp [h]

theorem afterPlaywright_pdfCreated (f : Flags) (e : Env) (d1 d2 : Bool) :
    (afterPlaywright f e d1 d2).pdfCreated
      = (f.hasPlaywright && !e.playwrightPdf.throws && (d1 || e.playwrightPdf.writes)) := by
  rw [afterPlaywright, playwrightStep_pdfCreated]
  simp [initSt]

theorem afterCairoPng_pdfOnDisk_mono (f : Flags) (e : Env) (d1 d2 : Bool)
    (hd : d1 = true) : (afterCairoPng f e d1 d2).pdfOnDisk = true := by
  rw [afterCairoPng, cairoPngStep_pdfOnDisk, afterRenderPM, renderPMStep_pdfOnDisk,
    afterCairoPdf]
  apply cairoPdfStep_pdfOnDisk_mono
  rw [afterSvglib]
  apply svglibStep_pdfOnDisk_mono
  rw [afterPlaywright, playwrightStep_pdfOnDisk]
  subst hd
  simp [initSt]

theorem afterRenderPM_pngCreated (f : Flags) (e : Env) (d1 d2 : Bool) :
    (afterRenderPM f e d1 d2).pngCreated
      = (f.hasRenderPM && !e.svg2rlgPng.throws && e.svg2rlgPng.someDrawing
          && !e.renderPmDraw.throws
          && ((afterCairoPdf f e d1 d2).pngOnDisk || e.renderPmDraw.writes)) := by
  rw [afterRenderPM, renderPMStep_pngCreated, afterCairoPdf_pngCreated]
  simp

theorem mem_attempts_iff (f : Flags) (e : Env) (d1 d2 : Bool) :
    (Backend.playwright ∈ (afterCairoPng f e d1 d2).attempts ↔ f.hasPlaywright = true)
  ∧ (Backend.svglibPdf ∈ (afterCairoPng f e d1 d2).attempts
      ↔ (!(afterPlaywright f e d1 d2).pdfCreated && f.hasSvglibPdf) = true)
  ∧ (Backend.cairoPdf ∈ (afterCairoPng f e d1 d2).attempts
      ↔ (!(afterSvglib f e d1 d2).pdfCreated && f.hasCairosvg) = true)
  ∧ (Backend.renderPM ∈ (afterCairoPng f e d1 d2).attempts ↔ f.hasRenderPM = true)
  ∧ (Backend.cairoPng ∈ (afterCairoPng f e d1 d2).attempts
      ↔ (f.hasCairosvg && !(afterRenderPM f e d1 d2).pngCreated) = true) := by
  rw [afterCairoPng_attempts]
  refine ⟨?_, ?_, ?_, ?_, ?_⟩ <;>
    simp only [List.mem_append, mem_optList] <;> simp

/-! ### Claims -/

/-- C1 counterexample: with only cairosvg available and `cairosvg.svg2pdf`
returning normally without producing a file, `convert_svg` counts the
cairosvg attempt as the winning success (`pdf_created = True`, exit code 0)
even though no output PDF exists on disk, contradicting the claim that an
attempt after which no output file appeared is treated as a failure for
every backend in the PDF chain. -/
theorem c1_counterexample :
    (convert_svg inpSvg flagsCairoOnly envCairoSilent false false).1.pdfCreated = true
  ∧ (convert_svg inpSvg flagsCairoOnly envCairoSilent false false).1.pdfOnDisk = false
  ∧ (convert_svg inpSvg flagsCairoOnly envCairoSilent false false).2 = 0
  ∧ Backend.cairoPdf ∈ (convert_svg inpSvg flagsCairoOnly envCairoSilent false false).1.attempts := by
  decide

/-- C1 (amended): the Playwright and svglib attempts are counted as the
winning success only if the output PDF file exists on disk after the
attempt, and after a Playwright attempt that produced no file the next
candidate is tried; the cairosvg attempt, by contrast, is counted as the
winning success whenever its call returns without raising, with no
file-existence check. -/
theorem c1_success_requires_file (f : Flags) (e : Env) (s : St) :
    ((playwrightStep f e s).pdfCreated = true → s.pdfCreated = false →
       (playwrightStep f e s).pdfOnDisk = true)
  ∧ ((svglibStep f e s).pdfCreated = true → s.pdfCreated = false →
       (svglibStep f e s).pdfOnDisk = true)
  ∧ (s.pdfCreated = false → f.hasCairosvg = true → e.cairoPdf.throws = false →
       (cairoPdfStep f e s).pdfCreated = true)
  ∧ (f.hasPlaywright = true → e.playwrightPdf.throws = false →
       e.playwrightPdf.writes = false → s.pdfOnDisk = false → s.pdfCreated = false →
       f.hasSvglibPdf = true →
       Backend.svglibPdf ∈ (svglibStep f e (playwrightStep f e s)).attempts) := by
  refine ⟨?_, ?_, ?_, ?_⟩
  · intro h1 h0
    rw [playwrightStep_pdfCreated, h0, Bool.false_or] at h1
    rw [playwrightStep_pdfOnDisk]
    cases hd : s.pdfOnDisk <;> cases hw : e.playwrightPdf.writes <;>
      cases hp : f.hasPlaywright <;> simp_all
  · intro h1 h0
    rw [svglibStep_pdfCreated, h0, Bool.false_or] at h1
    rw [svglibStep_pdfOnDisk, h0]
    cases hd : s.pdfOnDisk <;> cases hw : e.renderPdfDraw.writes <;> simp_all
  · intro h0 hc ht
    rw [cairoPdfStep_pdfCreated, h0, hc, ht]
    rfl
  · intro hp ht hw hd h0 hsv
    rw [svglibStep_attempts, playwrightStep_pdfCreated, h0, ht, hd, hw, hp]
    simp [hsv]

/-- C1 witness: instantiating the amended claim — the cairosvg branch sets
`pdf_created` with no file check, and svglib is attempted after a fileless
Playwright attempt. -/
theorem c1_success_requires_file_witness :
    (cairoPdfStep flagsCairoOnly envCairoSilent (initSt false false)).pdfCreated = true
  ∧ Backend.svglibPdf ∈ (svglibStep flagsAll envAllFail
      (playwrightStep flagsAll { envAllFail with playwrightPdf := ⟨false, false⟩ }
        (initSt false false))).attempts :=
  ⟨(c1_success_requires_file flagsCairoOnly envCairoSilent (initSt false false)).2.2.1
      rfl rfl rfl,
   (c1_success_requires_file flagsAll { envAllFail with playwrightPdf := ⟨false, false⟩ }
      (initSt false false)).2.2.2 rfl rfl rfl rfl rfl rfl⟩

/-- C2 counterexample: with only Playwright available and the Playwright
block writing the PDF file before raising, no backend succeeds
(`pdf_created` stays `False`) and the process exits 1, yet the PDF file is
left behind on disk — contradicting "no PDF file is left behind". -/
theorem c2_counterexample :
    (convert_svg inpSvg flagsPwOnly envPwLeftover false false).2 = 1
  ∧ (convert_svg inpSvg flagsPwOnly envPwLeftover false false).1.pdfCreated = false
  ∧ (convert_svg inpSvg flagsPwOnly envPwLeftover false false).1.pdfOnDisk = true := by
  decide

/-- C2 (amended): for every invocation of `convert_svg` in which no PDF
backend succeeds, the process exits with status 1; no cleanup is performed,
so a PDF file already or partially written may be left behind on disk (the
run never deletes the PDF output path). -/
theorem c2_exit_nonzero (inp : InputFile) (f : Flags) (e : Env) (d1 d2 : Bool) :
    ((convert_svg inp f e d1 d2).1.pdfCreated = false → (convert_svg inp f e d1 d2).2 = 1)
  ∧ (d1 = true → (convert_svg inp f e d1 d2).1.pdfOnDisk = true) := by
  by_cases hpres : inp.present = true
  · by_cases hsfx : (strLower inp.suffix == ".svg") = true
    · have hred : convert_svg inp f e d1 d2 = finishPhase (afterCairoPng f e d1 d2) := by
        simp [convert_svg, hpres, hsfx]
      rw [hred]
      refine ⟨fun h => ?_, fun hd => ?_⟩
      · rw [finishPhase_pdfCreated] at h
        rw [finishPhase_exit, h]
        rfl
      · rw [finishPhase_pdfOnDisk]
        exact afterCairoPng_pdfOnDisk_mono f e d1 d2 hd
    · have hred : convert_svg inp f e d1 d2 = ({ initSt d1 d2 with msgs := [Msg.errBadExt] }, 1) := by
        simp [convert_svg, hpres, Bool.eq_false_iff.mpr hsfx]
      rw [hred]
      exact ⟨fun _ => rfl, fun hd => by simp [initSt, hd]⟩
  · have hred : convert_svg inp f e d1 d2 = ({ initSt d1 d2 with msgs := [Msg.errNotFound] }, 1) := by
      simp [convert_svg, Bool.eq_false_iff.mpr hpres]
    rw [hred]
    exact ⟨fun _ => rfl, fun hd => by simp [initSt, hd]⟩

/-- C2 witness: a run in which every backend call raises exits 1, and the
pre-existing PDF file is still on disk. -/
theorem c2_exit_nonzero_witness :
    (convert_svg inpSvg flagsPwOnly envAllFail true false).2 = 1
  ∧ (convert_svg inpSvg flagsPwOnly envAllFail true false).1.pdfOnDisk = true :=
  ⟨(c2_exit_nonzero inpSvg flagsPwOnly envAllFail true false).1 (by decide),
   (c2_exit_nonzero inpSvg flagsPwOnly envAllFail true false).2 rfl⟩

/-- C3 counterexample: a directory with one PDF whose extraction yields the
empty string produces zero text files, not one — the claim's "exactly N
text files, one per source PDF" fails. -/
theorem c3_counterexample :
    (ExtractPdfText.main none ["a"]
        (fun _ => ExtractPdfText.ExtractOutcome.ok "") (fun _ => true)).1.outputs = []
  ∧ (["a"] : List String).length = 1 := by
  decide

/-- C3 (amended): with no filename argument, one text file with the same
base name is produced per source PDF whose extraction yields non-empty text
and whose save succeeds (the output list filters the source list); in
particular, when extraction yields non-empty text and the save succeeds for
every PDF, exactly N text files are produced, one per source. -/
theorem c3_outputs_per_pdf (dirPdfs : List String)
    (env : String → ExtractPdfText.ExtractOutcome) (saveOk : String → Bool) :
    (ExtractPdfText.main none dirPdfs env saveOk).1.outputs
      = dirPdfs.filter (fun p => ExtractPdfText.goodText (env p) && saveOk p)
  ∧ ((∀ p ∈ dirPdfs, ExtractPdfText.goodText (env p) = true ∧ saveOk p = true) →
      (ExtractPdfText.main none dirPdfs env saveOk).1.outputs = dirPdfs) := by
  have houts : (ExtractPdfText.main none dirPdfs env saveOk).1.outputs
      = dirPdfs.filter (fun p => ExtractPdfText.goodText (env p) && saveOk p) := by
    cases dirPdfs with
    | nil => rfl
    | cons q rest =>
      simp only [ExtractPdfText.main, List.isEmpty_cons, Bool.false_eq_true, if_false]
      exact ExtractPdfText.processAll_outputs env saveOk (q :: rest)
  refine ⟨houts, fun h => ?_⟩
  rw [houts]
  apply List.filter_eq_self.mpr
  intro p hp
  simp [(h p hp).1, (h p hp).2]

/-- C3 witness: two PDFs, both extractions non-empty and both saves
succeeding, give exactly the two text files with matching base names. -/
theorem c3_outputs_per_pdf_witness :
    (ExtractPdfText.main none ["a", "b"]
        (fun _ => ExtractPdfText.ExtractOutcome.ok "t") (fun _ => true)).1.outputs
      = ["a", "b"] :=
  (c3_outputs_per_pdf ["a", "b"]
      (fun _ => ExtractPdfText.ExtractOutcome.ok "t") (fun _ => true)).2 (by decide)

theorem optChain_sublist (b1 b2 b3 b4 b5 : Bool) :
    ((if b1 then [Backend.playwright] else []) ++ (if b2 then [Backend.svglibPdf] else [])
      ++ (if b3 then [Backend.cairoPdf] else []) ++ (if b4 then [Backend.renderPM] else [])
      ++ (if b5 then [Backend.cairoPng] else [])).Sublist
      [Backend.playwright, Backend.svglibPdf, Backend.cairoPdf,
       Backend.renderPM, Backend.cairoPng] := by
  cases b1 <;> cases b2 <;> cases b3 <;> cases b4 <;> cases b5 <;> decide

/-- C4: the backends are attempted in the fixed order Playwright, svglib,
cairosvg (PDF chain), then renderPM, cairosvg (PNG chain): the attempt list
equals the guarded concatenation in that order, is a sublist of the full
chain, each attempted backend has its dependency importable, and the guards
show that no further PDF (resp. PNG) candidate is attempted after one
succeeds. -/
theorem c4_backend_order (f : Flags) (e : Env) (d1 d2 : Bool) :
    (afterCairoPng f e d1 d2).attempts
      = (if f.hasPlaywright then [Backend.playwright] else [])
        ++ (if !(afterPlaywright f e d1 d2).pdfCreated && f.hasSvglibPdf
              then [Backend.svglibPdf] else [])
        ++ (if !(afterSvglib f e d1 d2).pdfCreated && f.hasCairosvg
              then [Backend.cairoPdf] else [])
        ++ (if f.hasRenderPM then [Backend.renderPM] else [])
        ++ (if f.hasCairosvg && !(afterRenderPM f e d1 d2).pngCreated
              then [Backend.cairoPng] else [])
  ∧ (afterCairoPng f e d1 d2).attempts.Sublist
      [Backend.playwright, Backend.svglibPdf, Backend.cairoPdf,
       Backend.renderPM, Backend.cairoPng]
  ∧ (∀ b ∈ (afterCairoPng f e d1 d2).attempts, available f b = true) := by
  have hatt := afterCairoPng_attempts f e d1 d2
  refine ⟨hatt, ?_, ?_⟩
  · rw [hatt]
    exact optChain_sublist _ _ _ _ _
  · intro b hb
    rw [hatt] at hb
    simp only [List.mem_append, mem_optList] at hb
    rcases hb with ((((h | h) | h) | h) | h) <;> obtain ⟨hg, hbx⟩ := h <;> subst hbx
    · simpa [available] using hg
    · rw [Bool.and_eq_true] at hg
      simp [available, hg.2]
    · rw [Bool.and_eq_true] at hg
      simp [available, hg.2]
    · simpa [available] using hg
    · rw [Bool.and_eq_true] at hg
      simp [available, hg.1]

/-- C4 witness: with all libraries available and every call failing, the
first attempted backend is Playwright and it is available. -/
theorem c4_backend_order_witness :
    available flagsAll Backend.playwright = true :=
  (c4_backend_order flagsAll envAllFail false false).2.2 Backend.playwright (by decide)

/-- C5: an exception raised during a backend's conversion attempt is caught
and logged as a warning, and the next available candidate backend for that
output kind is still attempted; no failure aborts the run (the remaining
attempts and the final exit-code decision still happen). -/
theorem c5_exception_fallback (f : Flags) (e : Env) (d1 d2 : Bool) :
    (Backend.playwright ∈ (afterCairoPng f e d1 d2).attempts →
       e.playwrightPdf.throws = true →
       Msg.warnFailed Backend.playwright ∈ (afterCairoPng f e d1 d2).msgs
       ∧ (f.hasSvglibPdf = true → Backend.svglibPdf ∈ (afterCairoPng f e d1 d2).attempts)
       ∧ (f.hasRenderPM = true → Backend.renderPM ∈ (afterCairoPng f e d1 d2).attempts))
  ∧ (Backend.svglibPdf ∈ (afterCairoPng f e d1 d2).attempts →
       (e.svg2rlgPdf.throws = true
         ∨ (e.svg2rlgPdf.someDrawing = true ∧ e.renderPdfDraw.throws = true)) →
       Msg.warnFailed Backend.svglibPdf ∈ (afterCairoPng f e d1 d2).msgs
       ∧ (f.hasCairosvg = true → Backend.cairoPdf ∈ (afterCairoPng f e d1 d2).attempts))
  ∧ (Backend.cairoPdf ∈ (afterCairoPng f e d1 d2).attempts → e.cairoPdf.throws = true →
       Msg.warnFailed Backend.cairoPdf ∈ (afterCairoPng f e d1 d2).msgs)
  ∧ (Backend.renderPM ∈ (afterCairoPng f e d1 d2).attempts →
       (e.svg2rlgPng.throws = true
         ∨ (e.svg2rlgPng.someDrawing = true ∧ e.renderPmDraw.throws = true)) →
       Msg.warnFailed Backend.renderPM ∈ (afterCairoPng f e d1 d2).msgs
       ∧ (f.hasCairosvg = true → Backend.cairoPng ∈ (afterCairoPng f e d1 d2).attempts))
  ∧ (Backend.cairoPng ∈ (afterCairoPng f e d1 d2).attempts → e.cairoPng.throws = true →
       Msg.warnFailed Backend.cairoPng ∈ (afterCairoPng f e d1 d2).msgs) := by
  obtain ⟨m1, m2, m3, m4, m5⟩ := mem_attempts_iff f e d1 d2
  refine ⟨?_, ?_, ?_, ?_, ?_⟩
  · intro hm ht
    have hpw : f.hasPlaywright = true := m1.mp hm
    have hcr : (afterPlaywright f e d1 d2).pdfCreated = false := by
      rw [afterPlaywright_pdfCreated, ht]
      simp
    refine ⟨?_, fun hs => ?_, fun hr => ?_⟩
    · rw [afterCairoPng]
      apply cairoPngStep_msgs_mono
      rw [afterRenderPM]
      apply renderPMStep_msgs_mono
      rw [afterCairoPdf]
      apply cairoPdfStep_msgs_mono
      rw [afterSvglib]
      apply svglibStep_msgs_mono
      rw [afterPlaywright]
      exact playwrightStep_warn f e _ hpw ht
    · exact m2.mpr (by rw [hcr, hs]; rfl)
    · exact m4.mpr hr
  · intro hm ht
    have hg : (!(afterPlaywright f e d1 d2).pdfCreated && f.hasSvglibPdf) = true := m2.mp hm
    have hcr2 : (afterSvglib f e d1 d2).pdfCreated = false := by
      rw [afterSvglib, svglibStep_pdfCreated]
      rw [Bool.and_eq_true] at hg
      have h0 : (afterPlaywright f e d1 d2).pdfCreated = false := by
        simpa using hg.1
      rw [h0]
      rcases ht with h1 | ⟨h2, h3⟩
      · simp [h1]
      · simp [h2, h3]
    refine ⟨?_, fun hc => ?_⟩
    · rw [afterCairoPng]
      apply cairoPngStep_msgs_mono
      rw [afterRenderPM]
      apply renderPMStep_msgs_mono
      rw [afterCairoPdf]
      apply cairoPdfStep_msgs_mono
      rw [afterSvglib]
      exact svglibStep_warn f e _ hg ht
    · exact m3.mpr (by rw [hcr2, hc]; rfl)
  · intro hm ht
    have hg : (!(afterSvglib f e d1 d2).pdfCreated && f.hasCairosvg) = true := m3.mp hm
    rw [afterCairoPng]
    apply cairoPngStep_msgs_mono
    rw [afterRenderPM]
    apply renderPMStep_msgs_mono
    rw [afterCairoPdf]
    exact cairoPdfStep_warn f e _ hg ht
  · intro hm ht
    have hr : f.hasRenderPM = true := m4.mp hm
    have hpn : (afterRenderPM f e d1 d2).pngCreated = false := by
      rw [afterRenderPM, renderPMStep_pngCreated, afterCairoPdf_pngCreated]
      rcases ht with h1 | ⟨h2, h3⟩
      · simp [h1]
      · simp [h2, h3]
    refine ⟨?_, fun hc => ?_⟩
    · rw [afterCairoPng]
      apply cairoPngStep_msgs_mono
      rw [afterRenderPM]
      exact renderPMStep_warn f e _ hr ht
    · exact m5.mpr (by rw [hpn, hc]; rfl)
  · intro hm ht
    have hg : (f.hasCairosvg && !(afterRenderPM f e d1 d2).pngCreated) = true := m5.mp hm
    rw [afterCairoPng]
    exact cairoPngStep_warn f e _ hg ht

/-- C5 witness: with everything available and every call raising, the
Playwright failure is logged and svglib is still attempted. -/
theorem c5_exception_fallback_witness :
    Msg.warnFailed Backend.playwright ∈ (afterCairoPng flagsAll envAllFail false false).msgs
  ∧ Backend.svglibPdf ∈ (afterCairoPng flagsAll envAllFail false false).attempts :=
  ⟨((c5_exception_fallback flagsAll envAllFail false false).1 (by decide) rfl).1,
   ((c5_exception_fallback flagsAll envAllFail false false).1 (by decide) rfl).2.1 rfl⟩

/-- C6: when the SVG source carries explicit pixel `width="--px"` and
`height="--px"` attributes, the browser page surface is the declared size
plus 40px in each direction with a 20px body padding; when neither
attribute matches, the defaults 800 x 600 are used (surface 840 x 640). -/
theorem c6_surface_dims (content : String) :
    (∀ w h : Nat, searchSize widthPat content.toList = some w →
        searchSize heightPat content.toList = some h →
        pageConfigOf content = ⟨w + 40, h + 40, 20, true, 0⟩)
  ∧ (searchSize widthPat content.toList = none →
        searchSize heightPat content.toList = none →
        svgWidthOf content = 800 ∧ svgHeightOf content = 600
        ∧ pageConfigOf content = ⟨840, 640, 20, true, 0⟩) := by
  constructor
  · intro w h hw hh
    simp only [String.toList] at hw hh
    simp [pageConfigOf, svgWidthOf, svgHeightOf, String.toList, hw, hh]
  · intro hw hh
    simp only [String.toList] at hw hh
    simp [pageConfigOf, svgWidthOf, svgHeightOf, String.toList, hw, hh]

/-- C6 witness: a 96 x 54 SVG gives a 136 x 94 surface with 20px padding,
and a dimensionless SVG gives the 840 x 640 default surface. -/
theorem c6_surface_dims_witness :
    pageConfigOf svgSample = ⟨96 + 40, 54 + 40, 20, true, 0⟩
  ∧ pageConfigOf "<svg></svg>" = ⟨840, 640, 20, true, 0⟩ :=
  ⟨(c6_surface_dims svgSample).1 96 54 (by decide) (by decide),
   ((c6_surface_dims "<svg></svg>").2 (by decide) (by decide)).2.2⟩

theorem afterCairoPdf_setPngEnv (f : Flags) (e : Env) (d1 d2 : Bool)
    (p : ParseCall) (r c : ExtCall) :
    afterCairoPdf f (setPngEnv e p r c) d1 d2 = afterCairoPdf f e d1 d2 := rfl

/-- C7: on a validated input, `convert_svg` exits 0 exactly when the PDF
output was produced (`pdf_created`); the behaviour of the PNG attempts
never changes the exit code, and when the PDF succeeded but no PNG was
produced only the note message is printed. -/
theorem c7_exit_codes (inp : InputFile) (f : Flags) (e : Env) (d1 d2 : Bool)
    (hp : inp.present = true) (hs : (strLower inp.suffix == ".svg") = true) :
    ((convert_svg inp f e d1 d2).2 = 0
        ↔ (convert_svg inp f e d1 d2).1.pdfCreated = true)
  ∧ (∀ (p : ParseCall) (r c : ExtCall),
       (convert_svg inp f (setPngEnv e p r c) d1 d2).2 = (convert_svg inp f e d1 d2).2)
  ∧ ((convert_svg inp f e d1 d2).1.pdfCreated = true →
       (convert_svg inp f e d1 d2).1.pngCreated = false →
       Msg.notePng ∈ (convert_svg inp f e d1 d2).1.msgs) := by
  have hred : ∀ e' : Env, convert_svg inp f e' d1 d2 = finishPhase (afterCairoPng f e' d1 d2) := by
    intro e'
    simp [convert_svg, hp, hs]
  refine ⟨?_, ?_, ?_⟩
  · rw [hred, finishPhase_exit, finishPhase_pdfCreated]
    cases h : (afterCairoPng f e d1 d2).pdfCreated <;> simp [h]
  · intro p r c
    rw [hred, hred, finishPhase_exit, finishPhase_exit,
      afterCairoPng_pdfCreated, afterCairoPng_pdfCreated, afterCairoPdf_setPngEnv]
  · rw [hred, finishPhase_pdfCreated, finishPhase_pngCreated]
    intro h1 h2
    exact finishPhase_notePng _ h1 h2

/-- C7 witness: with every backend call raising, the exit code is 0 exactly
when the PDF flag is set (here both sides are false). -/
theorem c7_exit_codes_witness :
    ((convert_svg inpSvg flagsAll envAllFail false false).2 = 0
      ↔ (convert_svg inpSvg flagsAll envAllFail false false).1.pdfCreated = true) :=
  (c7_exit_codes inpSvg flagsAll envAllFail false false rfl (by decide)).1

/-- C8: an input with the wrong extension makes each tool print a
validation error and exit 1 before any backend or library conversion call:
`convert_svg.py` and `convert_svg_browser.py` reject non-`.svg` inputs with
an empty attempt list, and `extract_pdf_text.py` rejects a non-`.pdf`
argument with nothing processed. -/
theorem c8_validation (inp : InputFile) (f : Flags) (e : Env) (d1 d2 : Bool)
    (hasPlaywright : Bool) (call : ExtCall) (d : Bool)
    (a : ExtractPdfText.ArgFile) (dirPdfs : List String)
    (env : String → ExtractPdfText.ExtractOutcome) (saveOk : String → Bool) :
    (strLower inp.suffix ≠ ".svg" →
       (convert_svg inp f e d1 d2).2 = 1
       ∧ (convert_svg inp f e d1 d2).1.attempts = []
       ∧ ((convert_svg inp f e d1 d2).1.msgs = [Msg.errNotFound]
           ∨ (convert_svg inp f e d1 d2).1.msgs = [Msg.errBadExt]))
  ∧ (strLower inp.suffix ≠ ".svg" →
       (Browser.convert_svg inp hasPlaywright call d).exitCode = 1
       ∧ (Browser.convert_svg inp hasPlaywright call d).attempted = false
       ∧ ((Browser.convert_svg inp hasPlaywright call d).msgs = [BMsg.errNotFound]
           ∨ (Browser.convert_svg inp hasPlaywright call d).msgs = [BMsg.errBadExt]))
  ∧ (strLower a.suffix ≠ ".pdf" →
       (ExtractPdfText.main (some a) dirPdfs env saveOk).2 = 1
       ∧ (ExtractPdfText.main (some a) dirPdfs env saveOk).1.processed = []
       ∧ ((ExtractPdfText.main (some a) dirPdfs env saveOk).1.msgs
             = [ExtractPdfText.EMsg.errNotFound]
           ∨ (ExtractPdfText.main (some a) dirPdfs env saveOk).1.msgs
             = [ExtractPdfText.EMsg.errBadExt])) := by
  refine ⟨fun h => ?_, fun h => ?_, fun h => ?_⟩
  · have hss : (strLower inp.suffix == ".svg") = false := beq_eq_false_iff_ne.mpr h
    cases hpres : inp.present <;> simp [convert_svg, hpres, hss, initSt]
  · have hss : (strLower inp.suffix == ".svg") = false := beq_eq_false_iff_ne.mpr h
    cases hpres : inp.present <;> simp [Browser.convert_svg, hpres, hss]
  · have hss : (strLower a.suffix == ".pdf") = false := beq_eq_false_iff_ne.mpr h
    cases hpres : a.present <;> simp [ExtractPdfText.main, hpres, hss]

/-- C8 witness: a `.txt` input is rejected by the converter and by the
extractor with exit code 1. -/
theorem c8_validation_witness :
    (convert_svg ⟨true, ".txt"⟩ flagsAll envAllFail false false).2 = 1
  ∧ (ExtractPdfText.main (some ⟨true, ".txt", "doc"⟩) []
       (fun _ => ExtractPdfText.ExtractOutcome.err) (fun _ => true)).2 = 1 :=
  ⟨((c8_validation ⟨true, ".txt"⟩ flagsAll envAllFail false false true ⟨true, false⟩ false
       ⟨true, ".txt", "doc"⟩ [] (fun _ => ExtractPdfText.ExtractOutcome.err)
       (fun _ => true)).1 (by decide)).1,
   ((c8_validation ⟨true, ".txt"⟩ flagsAll envAllFail false false true ⟨true, false⟩ false
       ⟨true, ".txt", "doc"⟩ [] (fun _ => ExtractPdfText.ExtractOutcome.err)
       (fun _ => true)).2.2 (by decide)).1⟩

/-- C9: the renderPM PNG attempt happens exactly when `HAS_RENDERPM`,
independently of the PDF outcome, and the cairosvg PNG attempt is guarded
only by `HAS_CAIROSVG` and the PNG flag; the PNG attempts precede the fatal
no-PDF check, so a run can exit 1 for lack of a PDF while the PNG file was
produced and remains on disk — witnessed concretely. -/
theorem c9_png_attempts_always (f : Flags) (e : Env) (d1 d2 : Bool) :
    (Backend.renderPM ∈ (afterCairoPng f e d1 d2).attempts ↔ f.hasRenderPM = true)
  ∧ (Backend.cairoPng ∈ (afterCairoPng f e d1 d2).attempts
      ↔ (f.hasCairosvg && !(afterRenderPM f e d1 d2).pngCreated) = true)
  ∧ ((convert_svg inpSvg flagsPngDemo envPngDemo false false).2 = 1
      ∧ (convert_svg inpSvg flagsPngDemo envPngDemo false false).1.pdfCreated = false
      ∧ (convert_svg inpSvg flagsPngDemo envPngDemo false false).1.pngCreated = true
      ∧ (convert_svg inpSvg flagsPngDemo envPngDemo false false).1.pngOnDisk = true) := by
  obtain ⟨-, -, -, m4, m5⟩ := mem_attempts_iff f e d1 d2
  exact ⟨m4, m5, by decide⟩

/-- C10: a PDF that passes validation but whose extraction raises or yields
the empty string gets no `.txt` file, a failure message is printed, and the
run still exits 0 — in both the single-argument mode and the directory
mode. -/
theorem c10_failed_extraction (a : ExtractPdfText.ArgFile) (dirPdfs : List String)
    (env : String → ExtractPdfText.ExtractOutcome) (saveOk : String → Bool) (p : String) :
    (a.present = true → (strLower a.suffix == ".pdf") = true →
       ExtractPdfText.goodText (env a.stem) = false →
       (ExtractPdfText.main (some a) dirPdfs env saveOk).1.outputs = []
       ∧ ExtractPdfText.EMsg.failedExtract a.stem
           ∈ (ExtractPdfText.main (some a) dirPdfs env saveOk).1.msgs
       ∧ (ExtractPdfText.main (some a) dirPdfs env saveOk).2 = 0)
  ∧ (p ∈ dirPdfs → ExtractPdfText.goodText (env p) = false →
       p ∉ (ExtractPdfText.main none dirPdfs env saveOk).1.outputs
       ∧ ExtractPdfText.EMsg.failedExtract p
           ∈ (ExtractPdfText.main none dirPdfs env saveOk).1.msgs
       ∧ (ExtractPdfText.main none dirPdfs env saveOk).2 = 0) := by
  refine ⟨fun hp hs hg => ?_, fun hm hg => ?_⟩
  · have hred : ExtractPdfText.main (some a) dirPdfs env saveOk
        = (ExtractPdfText.processAll env saveOk [a.stem], 0) := by
      simp [ExtractPdfText.main, hp, hs]
    rw [hred]
    refine ⟨?_, ?_, rfl⟩
    · rw [ExtractPdfText.processAll_outputs]
      simp [hg]
    · exact ExtractPdfText.processAll_msgs_failed env saveOk [a.stem] a.stem (by simp) hg
  · have hne : dirPdfs.isEmpty = false := by
      cases dirPdfs with
      | nil => simp at hm
      | cons q rest => rfl
    have hred : ExtractPdfText.main none dirPdfs env saveOk
        = (ExtractPdfText.processAll env saveOk dirPdfs, 0) := by
      simp [ExtractPdfText.main, hne]
    rw [hred]
    refine ⟨?_, ?_, rfl⟩
    · rw [ExtractPdfText.processAll_outputs]
      simp [List.mem_filter, hg]
    · exact ExtractPdfText.processAll_msgs_failed env saveOk dirPdfs p hm hg

/-- C10 witness: a valid `.pdf` argument whose extraction raises produces
no output file yet the run exits 0. -/
theorem c10_failed_extraction_witness :
    (ExtractPdfText.main (some ⟨true, ".pdf", "doc"⟩) []
        (fun _ => ExtractPdfText.ExtractOutcome.err) (fun _ => true)).1.outputs = []
  ∧ (ExtractPdfText.main (some ⟨true, ".pdf", "doc"⟩) []
        (fun _ => ExtractPdfText.ExtractOutcome.err) (fun _ => true)).2 = 0 :=
  ⟨((c10_failed_extraction ⟨true, ".pdf", "doc"⟩ []
       (fun _ => ExtractPdfText.ExtractOutcome.err) (fun _ => true) "doc").1
       rfl (by decide) rfl).1,
   ((c10_failed_extraction ⟨true, ".pdf", "doc"⟩ []
       (fun _ => ExtractPdfText.ExtractOutcome.err) (fun _ => true) "doc").1
       rfl (by decide) rfl).2.2⟩
